import Mathlib

/-!
Verification of the 7cents MCP server's request-dispatch and
tool-authorization layer, shallowly embedded from the TypeScript source.

Embedded source units:
* `src/src/handleToolCall.ts` — `handleToolCall` (subscription gate and
  handler lookup).
* `src/prisma/schema.prisma` (appended `getUserTools` document) —
  `getToolsForUser`.
* `src/src/routes.ts` — the `POST /mcp` JSON-RPC dispatcher, plus the
  appended GMAIL_SENDER document: `shouldRefreshToken`,
  `refreshAccessToken` and the full Gmail handler with proactive refresh
  and retry-once-on-auth-error.
* `src/unnamed/part_001` — the variant `POST /mcp` dispatcher (no
  `jsonrpc` validation, `userId` validated first, extra methods).
* `src/src/toolsFolder/GMAIL_SENDER.ts` — the simple Gmail handler that
  performs no refresh and no retry.
* `src/unnamed/part_002` — the CALENDAR_EVENT_CREATOR refresh
  persistence step.

JavaScript conventions used throughout the embedding: an absent value is
`Option.none`; string falsiness (`!s`) is the test `s == ""`; for
`process.env` variables the absent and empty cases collapse to `""`,
which the source treats identically (both falsy).
-/

namespace Mcp

/-- JSON-RPC id values: number, string or null. A JSON-RPC id absent from
the envelope is `Option.none` at the envelope level. -/
inductive RpcId where
  | num (n : Int)
  | str (s : String)
  | null
deriving DecidableEq, Repr

/-- Tool arguments object, as an association list of string keys to string
values (the argument payloads themselves are opaque to the dispatch layer). -/
abbrev Args := List (String × String)

/-- Object property read: `args[k]`, `none` when the key is absent. -/
def getArg (a : Args) (k : String) : Option String :=
  (a.find? (fun p => p.1 == k)).map (fun p => p.2)

/-- Rest-destructuring `const { k, ...rest } = a`: all remaining properties. -/
def removeArg (a : Args) (k : String) : Args :=
  a.filter (fun p => p.1 != k)

/-- Spread-with-override `{ ...a, k: v }`: property `k` now maps to `v`. -/
def setArg (a : Args) (k : String) (v : String) : Args :=
  removeArg a k ++ [(k, v)]

/-- JS truthiness of an optional string: `undefined` and `""` are falsy. -/
def jsTruthy : Option String → Bool
  | none => false
  | some s => s != ""

/-- JS `x || y` on an optional string with a string default. -/
def jsOrElse (o : Option String) (d : String) : String :=
  match o with
  | none => d
  | some s => if s == "" then d else s

/-- One `content` entry of a tool result: `{type, text}`. -/
structure ContentItem where
  type : String
  text : String
deriving DecidableEq, Repr

/-- The uniform tool-result shape `{content, isError?}`; a result object
without an `isError` property is modelled with `isError := false`. -/
structure ToolResult where
  content : List ContentItem
  isError : Bool
deriving DecidableEq, Repr

/-- Builds the single-text content list used by every handler. -/
def mkText (s : String) : ContentItem := { type := "text", text := s }

/-- A tool result with `isError: true`. -/
def errResult (s : String) : ToolResult := { content := [mkText s], isError := true }

/-- A tool result without the `isError` property. -/
def okResult (s : String) : ToolResult := { content := [mkText s], isError := false }

/-- A tool handler: `(toolArgs, userId) => result`. -/
abbrev HandlerFn := Args → Option String → ToolResult

/-- The subscription database: the `UserTool` rows, each a
`(userId, toolId)` pair (the source stores tool names in `toolId`). -/
structure Db where
  userTools : List (String × String)
deriving DecidableEq, Repr

/-- The `prisma.userTool.findMany({where:{userId}, select:{toolId}})`
query of `handleToolCall`, mapped to the list of `toolId` fields. The
claims only exercise the case of a present `userId`. -/
def userToolIds (db : Db) (userId : Option String) : List String :=
  (db.userTools.filter (fun r => some r.1 == userId)).map (fun r => r.2)

/-- Record of whether (and how) a tool handler was invoked during a call. -/
inductive HandlerEvent where
  | none
  | called (name : String) (toolArgs : Args) (userId : Option String)
deriving DecidableEq, Repr

/-- The access-denied result of `handleToolCall`. -/
def accessDeniedResult (name : String) : ToolResult :=
  errResult ("❌ Access denied. Tool \"" ++ name ++ "\" is not subscribed for this user.")

/-- The not-implemented result of `handleToolCall`. -/
def notImplementedResult (name : String) : ToolResult :=
  errResult ("❌ Tool \"" ++ name ++ "\" is not implemented.")

/-- `handleToolCall` from `src/src/handleToolCall.ts`: rejects missing
args, extracts `userId`, checks the per-user subscription rows, then
looks up and invokes the registered handler. The second component
records whether a handler was invoked (the source's only effect beyond
the subscription read). -/
def handleToolCall (db : Db) (toolHandlers : String → Option HandlerFn)
    (name : String) (args : Option Args) : ToolResult × HandlerEvent :=
  match args with
  | none =>
      ({ content := [mkText ("No arguments provided for tool: " ++ name)], isError := true },
       HandlerEvent.none)
  | some a =>
      let userId := getArg a "userId"
      let toolArgs := removeArg a "userId"
      let allowedTools := userToolIds db userId
      if !(allowedTools.contains name) then
        (accessDeniedResult name, HandlerEvent.none)
      else
        match toolHandlers name with
        | none => (notImplementedResult name, HandlerEvent.none)
        | some handler => (handler toolArgs userId, HandlerEvent.called name toolArgs userId)

/-- A registered tool descriptor (the authorization layer only reads `name`). -/
structure ToolDescriptor where
  name : String
  description : String
deriving DecidableEq, Repr

/-- `getToolsForUser` from the `getUserTools` document: the `userTool`
rows for `userId` give the subscribed tool ids, and `allTools` is
filtered to those whose `name` is subscribed. -/
def getToolsForUser (db : Db) (userId : String) (allTools : List ToolDescriptor) :
    List ToolDescriptor :=
  let subscribedToolIds := (db.userTools.filter (fun r => r.1 == userId)).map (fun r => r.2)
  allTools.filter (fun tool => subscribedToolIds.contains tool.name)

/-- The `params` object of a `tools/call` request: `{name, arguments}`. -/
structure ToolCallParams where
  name : String
  arguments : Option Args
deriving DecidableEq, Repr

/-- An inbound JSON-RPC envelope; each field is `none` when the property
is absent from the message object. -/
structure RpcMessage where
  jsonrpc : Option String
  id : Option RpcId
  method : Option String
  params : Option ToolCallParams
deriving DecidableEq, Repr

/-- The `result` payload of a successful dispatch. -/
inductive RpcResult where
  | initResult
  | toolList (tools : List ToolDescriptor)
  | toolResult (r : ToolResult)
  | resourcesList
  | promptsList
deriving DecidableEq, Repr

/-- The HTTP response produced by a `POST /mcp` dispatch: a JSON-RPC
success body, a JSON-RPC error body, or an empty `204` acknowledgement. -/
inductive McpResponse where
  | success (status : Nat) (id : RpcId) (result : RpcResult)
  | rpcError (status : Nat) (code : Int) (message : String) (id : RpcId)
  | noContent (status : Nat)
deriving DecidableEq, Repr

/-- The `message.id || null` expression used for error responses: JS
falsy ids (absent, `null`, `0`, `""`) collapse to `null`. -/
def idOrNull : Option RpcId → RpcId
  | none => RpcId.null
  | some RpcId.null => RpcId.null
  | some (RpcId.num n) => if n == 0 then RpcId.null else RpcId.num n
  | some (RpcId.str s) => if s == "" then RpcId.null else RpcId.str s

/-- The `POST /mcp` dispatcher of `src/src/routes.ts`: validates the
`jsonrpc` marker, classifies request / notification / malformed, and
dispatches `initialize`, `tools/list` and `tools/call`; unknown methods
and missing `tools/call` params throw, caught as `-32603` errors with
the request id. -/
def postMcp (db : Db) (toolHandlers : String → Option HandlerFn)
    (tools : List ToolDescriptor) (userId : String) (m : RpcMessage) :
    McpResponse × HandlerEvent :=
  if !(jsTruthy m.jsonrpc) || m.jsonrpc != some "2.0" then
    (McpResponse.rpcError 400 (-32600) "Invalid Request - missing or invalid jsonrpc field"
       (idOrNull m.id), HandlerEvent.none)
  else
    match m.method, m.id with
    | some mth, some i =>
        if mth == "initialize" then
          (McpResponse.success 200 i RpcResult.initResult, HandlerEvent.none)
        else if mth == "tools/list" then
          (McpResponse.success 200 i (RpcResult.toolList (getToolsForUser db userId tools)),
           HandlerEvent.none)
        else if mth == "tools/call" then
          match m.params with
          | none =>
              (McpResponse.rpcError 500 (-32603) "Missing parameters for tools/call" i,
               HandlerEvent.none)
          | some p =>
              let argsWithUser := setArg (p.arguments.getD []) "userId" userId
              let r := handleToolCall db toolHandlers p.name (some argsWithUser)
              (McpResponse.success 200 i (RpcResult.toolResult r.1), r.2)
        else
          (McpResponse.rpcError 500 (-32603) ("Method not found: " ++ mth) i, HandlerEvent.none)
    | some _, none => (McpResponse.noContent 204, HandlerEvent.none)
    | none, _ =>
        (McpResponse.rpcError 400 (-32600) "Invalid Request - missing method"
           (idOrNull m.id), HandlerEvent.none)

/-- The variant `POST /mcp` dispatcher of `src/unnamed/part_001`: no
`jsonrpc` validation; a falsy `userId` query parameter is rejected first
with `-32602`; `resources/list` and `prompts/list` are additionally
dispatched, and a falsy `tools/call` name throws. -/
def postMcpVariant (db : Db) (toolHandlers : String → Option HandlerFn)
    (tools : List ToolDescriptor) (userId : Option String) (m : RpcMessage) :
    McpResponse × HandlerEvent :=
  if !(jsTruthy userId) then
    (McpResponse.rpcError 400 (-32602) "Missing required userId parameter"
       (idOrNull m.id), HandlerEvent.none)
  else
    match m.method, m.id with
    | some mth, some i =>
        if mth == "initialize" then
          (McpResponse.success 200 i RpcResult.initResult, HandlerEvent.none)
        else if mth == "tools/list" then
          (McpResponse.success 200 i
             (RpcResult.toolList (getToolsForUser db (userId.getD "") tools)),
           HandlerEvent.none)
        else if mth == "tools/call" then
          match m.params with
          | none =>
              (McpResponse.rpcError 500 (-32603) "Missing parameters for tools/call" i,
               HandlerEvent.none)
          | some p =>
              if p.name == "" then
                (McpResponse.rpcError 500 (-32603) "Missing tool name in tools/call" i,
                 HandlerEvent.none)
              else
                let argsWithUser := setArg (p.arguments.getD []) "userId" (userId.getD "")
                let r := handleToolCall db toolHandlers p.name (some argsWithUser)
                (McpResponse.success 200 i (RpcResult.toolResult r.1), r.2)
        else if mth == "resources/list" then
          (McpResponse.success 200 i RpcResult.resourcesList, HandlerEvent.none)
        else if mth == "prompts/list" then
          (McpResponse.success 200 i RpcResult.promptsList, HandlerEvent.none)
        else
          (McpResponse.rpcError 500 (-32603) ("Method not found: " ++ mth) i, HandlerEvent.none)
    | some _, none => (McpResponse.noContent 204, HandlerEvent.none)
    | none, _ =>
        (McpResponse.rpcError 400 (-32600) "Invalid Request - missing method"
           (idOrNull m.id), HandlerEvent.none)

/-! ### Token lifecycle (GMAIL_SENDER document appended in `src/src/routes.ts`) -/

/-- A stored `AccessKey` row for a `(user, tool)` pair; times are
milliseconds since the epoch. `refreshToken` is nullable in the schema. -/
structure AccessKeyRec where
  accessToken : String
  refreshToken : Option String
  expiryDate : Int
deriving DecidableEq, Repr

/-- `shouldRefreshToken`: stale when the expiry is absent or within the
five-minute guard window of `now`. -/
def shouldRefreshToken (now : Int) (expiryDate : Option Int) : Bool :=
  match expiryDate with
  | none => true
  | some e => decide (e ≤ now + 5 * 60 * 1000)

/-- What the provider's token endpoint returned for one refresh call:
credentials (each field possibly absent) or a thrown error. -/
inductive RefreshOutcome where
  | ok (accessToken : Option String) (refreshToken : Option String)
  | err (msg : String)
deriving DecidableEq, Repr

/-- A failed provider send: optional HTTP status code plus message. -/
structure SendError where
  code : Option Int
  message : String
deriving DecidableEq, Repr

/-- `error.message.includes(pat)` for a non-empty pattern. -/
def occursIn (s pat : String) : Bool :=
  decide (1 < (s.splitOn pat).length)

/-- The `isAuthError` classification of the GMAIL_SENDER catch block:
HTTP 401/403 or a message mentioning one of the OAuth failure markers. -/
def isAuthError (e : SendError) : Bool :=
  e.code == some 401 || e.code == some 403 ||
    (e.message != "" &&
      (occursIn e.message "invalid_client" || occursIn e.message "invalid_grant" ||
       occursIn e.message "unauthorized" || occursIn e.message "forbidden"))

/-- `refreshAccessToken`: given the refresh outcome, either the error
thrown (wrapped as `Token refresh failed: …`, nothing persisted) or the
new access token together with the credential row as persisted by the
`prisma.accessKey.update` — access token replaced, refresh token
replaced only when the provider issued a truthy new one, expiry set to
one hour after `now`. -/
def refreshAccessToken (now : Int) (refreshToken : String) (outcome : RefreshOutcome) :
    Except String (String × AccessKeyRec) :=
  match outcome with
  | RefreshOutcome.err m => Except.error ("Token refresh failed: " ++ m)
  | RefreshOutcome.ok newAccess newRefresh =>
      match newAccess with
      | none => Except.error "Token refresh failed: No access token received from refresh"
      | some a =>
          if a == "" then
            Except.error "Token refresh failed: No access token received from refresh"
          else
            Except.ok (a,
              { accessToken := a,
                refreshToken := some (jsOrElse newRefresh refreshToken),
                expiryDate := now + 3600 * 1000 })

/-- One observable provider interaction of a Gmail handler run: a token
refresh call, or a send attempt recording the access token it used. -/
inductive ProviderEvent where
  | refreshCall
  | sendCall (token : String)
deriving DecidableEq, Repr

/-- Whether an event is a send attempt. -/
def ProviderEvent.isSend : ProviderEvent → Bool
  | ProviderEvent.sendCall _ => true
  | ProviderEvent.refreshCall => false

/-- The events that happen before the first send attempt (the proactive
phase of a run). -/
def proactiveSegment (tr : List ProviderEvent) : List ProviderEvent :=
  tr.takeWhile (fun e => !e.isSend)

/-- The outcome of one Gmail handler run: the tool result, the ordered
provider interactions, and the credential row as stored afterwards. -/
structure GmailRun where
  result : ToolResult
  trace : List ProviderEvent
  stored : Option AccessKeyRec
deriving DecidableEq, Repr

/-- The Google OAuth environment configuration; `""` models an unset
variable (the source only tests falsiness). -/
structure GmailEnv where
  clientId : String
  clientSecret : String
  redirectUri : String
deriving DecidableEq, Repr

/-- The send-then-retry phase (the outer `try`/`catch` of the full
GMAIL_SENDER handler): attempt the send with `token`; on an auth error,
refresh once with the original refresh token `rt` and retry the send
once; a second failure (of the refresh or of the retried send) is a
terminal error. `pre` carries the proactive-phase events, `refreshIdx`
the index of the next refresh call, `stored` the current credential row. -/
def gmailSendPhase (refreshAt : Nat → RefreshOutcome) (sendAt : Nat → Except SendError String)
    (now : Int) (toMail : String) (rt : String) (stored : AccessKeyRec) (token : String)
    (refreshIdx : Nat) (pre : List ProviderEvent) : GmailRun :=
  match sendAt 0 with
  | Except.ok msgId =>
      { result := okResult ("✅ Email sent to " ++ toMail ++ ". Gmail Message ID: " ++ msgId),
        trace := pre ++ [ProviderEvent.sendCall token],
        stored := some stored }
  | Except.error e =>
      if isAuthError e && rt != "" then
        match refreshAccessToken now rt (refreshAt refreshIdx) with
        | Except.error m =>
            { result := errResult ("❌ Authentication failed and token refresh unsuccessful: "
                 ++ m ++ ". Please re-authenticate Gmail."),
              trace := pre ++ [ProviderEvent.sendCall token, ProviderEvent.refreshCall],
              stored := some stored }
        | Except.ok (t2, rec2) =>
            match sendAt 1 with
            | Except.ok msgId =>
                { result := okResult ("✅ Email sent to " ++ toMail
                     ++ " after token refresh. Gmail Message ID: " ++ msgId),
                  trace := pre ++ [ProviderEvent.sendCall token, ProviderEvent.refreshCall,
                                   ProviderEvent.sendCall t2],
                  stored := some rec2 }
            | Except.error e2 =>
                { result := errResult ("❌ Authentication failed and token refresh unsuccessful: "
                     ++ e2.message ++ ". Please re-authenticate Gmail."),
                  trace := pre ++ [ProviderEvent.sendCall token, ProviderEvent.refreshCall,
                                   ProviderEvent.sendCall t2],
                  stored := some rec2 }
      else
        { result := errResult ("❌ Failed to send email: " ++ e.message),
          trace := pre ++ [ProviderEvent.sendCall token],
          stored := some stored }

/-- The full GMAIL_SENDER handler (appended document in
`src/src/routes.ts`): parameter and environment guards, credential
lookup, proactive refresh when the token is stale or absent, then the
send/retry phase. `refreshAt n` and `sendAt n` give the provider's
response to the `n`-th refresh and send call of the run. -/
def gmailHandler (env : GmailEnv) (key : Option AccessKeyRec) (now : Int)
    (refreshAt : Nat → RefreshOutcome) (sendAt : Nat → Except SendError String)
    (toMail subject body : String) (userId : Option String) : GmailRun :=
  if toMail == "" || subject == "" || body == "" || !(jsTruthy userId) then
    { result := errResult "❌ Missing required parameters: toMail, subject, body, or userId.",
      trace := [], stored := key }
  else if env.clientId == "" || env.clientSecret == "" || env.redirectUri == "" then
    { result := errResult "❌ Server configuration error: Google OAuth credentials not set.",
      trace := [], stored := key }
  else
    match key with
    | none =>
        { result := errResult "❌ No refresh token found. Please authenticate Gmail first.",
          trace := [], stored := key }
    | some k =>
        match k.refreshToken with
        | none =>
            { result := errResult "❌ No refresh token found. Please authenticate Gmail first.",
              trace := [], stored := key }
        | some rt =>
            if rt == "" then
              { result := errResult "❌ No refresh token found. Please authenticate Gmail first.",
                trace := [], stored := key }
            else
              if shouldRefreshToken now (some k.expiryDate) || k.accessToken == "" then
                match refreshAccessToken now rt (refreshAt 0) with
                | Except.error m =>
                    { result := errResult ("❌ Failed to refresh token: " ++ m
                         ++ ". Please re-authenticate Gmail."),
                      trace := [ProviderEvent.refreshCall], stored := some k }
                | Except.ok (t1, rec1) =>
                    gmailSendPhase refreshAt sendAt now toMail rt rec1 t1 1
                      [ProviderEvent.refreshCall]
              else
                gmailSendPhase refreshAt sendAt now toMail rt k k.accessToken 0 []

/-- The simple GMAIL_SENDER handler of `src/src/toolsFolder/GMAIL_SENDER.ts`
(the module the registry loads): credential lookup and a single send
attempt; any failure is returned directly — no refresh, no retry. -/
def gmailSimpleHandler (key : Option AccessKeyRec) (sendOutcome : Except SendError String)
    (toMail subject body : String) (userId : Option String) : GmailRun :=
  if toMail == "" || subject == "" || body == "" || !(jsTruthy userId) then
    { result := errResult "❌ Missing required parameters: toMail, subject, body, or userId.",
      trace := [], stored := key }
  else
    match key with
    | none =>
        { result := errResult "❌ No access token found. Please authenticate Gmail first.",
          trace := [], stored := key }
    | some k =>
        if k.accessToken == "" then
          { result := errResult "❌ No access token found. Please authenticate Gmail first.",
            trace := [], stored := key }
        else
          match sendOutcome with
          | Except.ok msgId =>
              { result := okResult ("✅ Email sent to " ++ toMail
                   ++ ". Gmail Message ID: " ++ msgId),
                trace := [ProviderEvent.sendCall k.accessToken], stored := key }
          | Except.error e =>
              { result := errResult ("❌ Failed to send email: " ++ e.message),
                trace := [ProviderEvent.sendCall k.accessToken], stored := key }

/-- The refresh-and-persist step of the CALENDAR_EVENT_CREATOR handler
(`src/unnamed/part_002`, the retry block's steps 3–4): on a successful
refresh the `prisma.accessKey.update` writes only `accessToken` and
`refreshToken` (new one or retained old) — the stored `expiryDate` is
left unchanged; on a failed refresh nothing is persisted. -/
def calendarRefreshPersist (stored : AccessKeyRec) (refreshToken : String)
    (outcome : RefreshOutcome) : Except String AccessKeyRec :=
  match outcome with
  | RefreshOutcome.err m => Except.error m
  | RefreshOutcome.ok newAccess newRefresh =>
      match newAccess with
      | none => Except.error "Failed to get new access token during refresh."
      | some a =>
          if a == "" then
            Except.error "Failed to get new access token during refresh."
          else
            Except.ok { stored with
              accessToken := a,
              refreshToken := some (jsOrElse newRefresh refreshToken) }

/-! ### Helper lemmas -/

theorem getArg_setArg (a : Args) (k v : String) : getArg (setArg a k v) k = some v := by
  induction a with
  | nil => simp [getArg, setArg, removeArg]
  | cons hd tl ih =>
      simp only [setArg, removeArg, List.filter_cons] at *
      by_cases h : hd.1 = k
      · simp [h, getArg] at ih ⊢
      · simp [getArg, List.find?_cons, h] at ih ⊢

theorem mem_userToolIds (db : Db) (u T : String) :
    T ∈ userToolIds db (some u) ↔ ∃ p ∈ db.userTools, p.1 = u ∧ p.2 = T := by
  simp [userToolIds, List.mem_filter, List.mem_map]

theorem accessDenied_ne_notImplemented (T : String) :
    accessDeniedResult T ≠ notImplementedResult T := by
  intro h
  have htext : ("❌ Access denied. Tool \"" ++ T ++ "\" is not subscribed for this user.")
      = ("❌ Tool \"" ++ T ++ "\" is not implemented.") := by
    simpa [accessDeniedResult, notImplementedResult, errResult, mkText] using h
  have hlen := congrArg String.length htext
  have h1 : ("❌ Access denied. Tool \"" : String).length = 23 := rfl
  have h2 : ("\" is not subscribed for this user." : String).length = 34 := rfl
  have h3 : ("❌ Tool \"" : String).length = 8 := rfl
  have h4 : ("\" is not implemented." : String).length = 21 := rfl
  simp [String.length_append, h1, h2, h3, h4] at hlen
  omega

theorem gmailSendPhase_trace (refreshAt : Nat → RefreshOutcome)
    (sendAt : Nat → Except SendError String) (now : Int) (toMail rt : String)
    (stored : AccessKeyRec) (token : String) (refreshIdx : Nat) (pre : List ProviderEvent) :
    ∃ rest, (gmailSendPhase refreshAt sendAt now toMail rt stored token refreshIdx pre).trace
      = pre ++ ProviderEvent.sendCall token :: rest := by
  unfold gmailSendPhase
  cases hs0 : sendAt 0 with
  | ok msgId => exact ⟨[], by simp⟩
  | error e =>
      by_cases hA : (isAuthError e && rt != "") = true
      · simp only [hA, if_true]
        cases hr : refreshAccessToken now rt (refreshAt refreshIdx) with
        | error m => exact ⟨[ProviderEvent.refreshCall], by simp⟩
        | ok pr =>
            cases hs1 : sendAt 1 with
            | ok msgId =>
                exact ⟨[ProviderEvent.refreshCall, ProviderEvent.sendCall pr.1], by simp⟩
            | error e2 =>
                exact ⟨[ProviderEvent.refreshCall, ProviderEvent.sendCall pr.1], by simp⟩
      · simp only [hA, if_false]
        exact ⟨[], by simp⟩

theorem proactiveSegment_send_cons (token : String) (rest : List ProviderEvent) :
    proactiveSegment (ProviderEvent.sendCall token :: rest) = [] := by
  simp [proactiveSegment, List.takeWhile_cons, ProviderEvent.isSend]

theorem proactiveSegment_refresh_send (token : String) (rest : List ProviderEvent) :
    proactiveSegment (ProviderEvent.refreshCall :: ProviderEvent.sendCall token :: rest) =
      [ProviderEvent.refreshCall] := by
  simp [proactiveSegment, List.takeWhile_cons, ProviderEvent.isSend]

/-! ### Claim theorems -/

/-- C1: for every user `u` and tool name `T` with no `ToolSubscription`
row `(u, T)`, a `tools/call` for `T` dispatched for `u` produces a
JSON-RPC success (HTTP 200, not a protocol error) whose result is the
tool-result object with `isError := true` and the human-readable denial
message, and no tool handler is invoked (hence no provider call occurs). -/
theorem tools_call_unsubscribed_is_denied
    (db : Db) (toolHandlers : String → Option HandlerFn) (tools : List ToolDescriptor)
    (u T : String) (i : RpcId) (args : Option Args)
    (hnosub : ∀ p ∈ db.userTools, p.1 = u → p.2 ≠ T) :
    postMcp db toolHandlers tools u
        { jsonrpc := some "2.0", id := some i, method := some "tools/call",
          params := some { name := T, arguments := args } } =
      (McpResponse.success 200 i (RpcResult.toolResult (accessDeniedResult T)),
       HandlerEvent.none) ∧
    (accessDeniedResult T).isError = true := by
  have hmem : T ∉ userToolIds db (some u) := by
    rw [mem_userToolIds]
    rintro ⟨p, hp, h1, h2⟩
    exact hnosub p hp h1 h2
  refine ⟨?_, rfl⟩
  simp [postMcp, jsTruthy, handleToolCall, getArg_setArg, hmem]

/-- C1 witness: a concrete unsubscribed call is denied without invoking
any handler. -/
theorem tools_call_unsubscribed_is_denied_witness :
    postMcp { userTools := [("u2", "GMAIL_SENDER")] } (fun _ => none) [] "u1"
        { jsonrpc := some "2.0", id := some (RpcId.num 7), method := some "tools/call",
          params := some { name := "GMAIL_SENDER", arguments := some [] } } =
      (McpResponse.success 200 (RpcId.num 7)
         (RpcResult.toolResult (accessDeniedResult "GMAIL_SENDER")),
       HandlerEvent.none) ∧
    (accessDeniedResult "GMAIL_SENDER").isError = true :=
  tools_call_unsubscribed_is_denied { userTools := [("u2", "GMAIL_SENDER")] } (fun _ => none)
    [] "u1" "GMAIL_SENDER" (RpcId.num 7) (some []) (by decide)

/-- C4: `tools/list` membership — a registered tool appears in
`getToolsForUser` iff a subscription row `(u, tool.name)` exists; the
filtered list is a subsequence of the registry list in registration
order; and the dispatcher's `tools/list` result is exactly that list. -/
theorem tools_list_iff_subscription
    (db : Db) (toolHandlers : String → Option HandlerFn) (tools : List ToolDescriptor)
    (u : String) (i : RpcId) (t : ToolDescriptor) :
    (t ∈ getToolsForUser db u tools ↔
       t ∈ tools ∧ ∃ p ∈ db.userTools, p.1 = u ∧ p.2 = t.name) ∧
    (getToolsForUser db u tools).Sublist tools ∧
    postMcp db toolHandlers tools u
        { jsonrpc := some "2.0", id := some i, method := some "tools/list", params := none } =
      (McpResponse.success 200 i (RpcResult.toolList (getToolsForUser db u tools)),
       HandlerEvent.none) := by
  refine ⟨?_, ?_, ?_⟩
  · simp [getToolsForUser, List.mem_filter, List.mem_map]
  · exact List.filter_sublist _
  · simp [postMcp, jsTruthy]

/-- C5 (amended): for every inbound envelope whose `jsonrpc` marker is
missing or not `"2.0"`, the `routes.ts` `POST /mcp` dispatcher responds
with the JSON-RPC error object of code `-32600` and dispatches no
method (no handler is invoked and no method result is produced). -/
theorem routes_invalid_jsonrpc_rejected
    (db : Db) (toolHandlers : String → Option HandlerFn) (tools : List ToolDescriptor)
    (u : String) (m : RpcMessage) (h : m.jsonrpc ≠ some "2.0") :
    postMcp db toolHandlers tools u m =
      (McpResponse.rpcError 400 (-32600) "Invalid Request - missing or invalid jsonrpc field"
         (idOrNull m.id), HandlerEvent.none) := by
  have hb : (m.jsonrpc != some "2.0") = true := by
    simpa using h
  simp [postMcp, hb]

/-- C5 witness: a concrete envelope without a `jsonrpc` marker is
rejected with `-32600`. -/
theorem routes_invalid_jsonrpc_rejected_witness :
    postMcp { userTools := [] } (fun _ => none) [] "u1"
        { jsonrpc := none, id := some (RpcId.num 3), method := some "initialize",
          params := none } =
      (McpResponse.rpcError 400 (-32600) "Invalid Request - missing or invalid jsonrpc field"
         (idOrNull (some (RpcId.num 3))), HandlerEvent.none) :=
  routes_invalid_jsonrpc_rejected { userTools := [] } (fun _ => none) [] "u1"
    { jsonrpc := none, id := some (RpcId.num 3), method := some "initialize", params := none }
    (by decide)

/-- C5 counterexample: the variant `POST /mcp` dispatcher
(`src/unnamed/part_001`) performs no `jsonrpc` validation — a concrete
envelope with no `jsonrpc` marker at all is dispatched and answered
with a JSON-RPC success, not with error `-32600`. -/
theorem variant_dispatcher_accepts_missing_jsonrpc :
    postMcpVariant { userTools := [] } (fun _ => none) [] (some "u1")
        { jsonrpc := none, id := some (RpcId.num 7), method := some "initialize",
          params := none } =
      (McpResponse.success 200 (RpcId.num 7) RpcResult.initResult, HandlerEvent.none) := by
  decide

/-- C7: a well-formed request (valid `jsonrpc`, `method` and `id`
present) naming a method outside the dispatched set is answered with a
JSON-RPC error response (the dispatcher returns normally rather than
crashing) carrying code `-32603`, the thrown `Method not found` message,
and the original request's `id` unchanged. -/
theorem unknown_method_returns_error_with_id
    (db : Db) (toolHandlers : String → Option HandlerFn) (tools : List ToolDescriptor)
    (u : String) (m : RpcMessage) (mth : String) (i : RpcId)
    (hj : m.jsonrpc = some "2.0") (hm : m.method = some mth) (hi : m.id = some i)
    (h1 : mth ≠ "initialize") (h2 : mth ≠ "tools/list") (h3 : mth ≠ "tools/call") :
    postMcp db toolHandlers tools u m =
      (McpResponse.rpcError 500 (-32603) ("Method not found: " ++ mth) i,
       HandlerEvent.none) := by
  obtain ⟨j, id?, mth?, p?⟩ := m
  simp only at hj hm hi
  subst hj hm hi
  simp [postMcp, jsTruthy, h1, h2, h3]

/-- C7 witness: a concrete request for the unregistered method
`resources/list` gets an error response with its own id. -/
theorem unknown_method_returns_error_with_id_witness :
    postMcp { userTools := [] } (fun _ => none) [] "u1"
        { jsonrpc := some "2.0", id := some (RpcId.str "req-9"),
          method := some "resources/list", params := none } =
      (McpResponse.rpcError 500 (-32603) ("Method not found: " ++ "resources/list")
         (RpcId.str "req-9"), HandlerEvent.none) :=
  unknown_method_returns_error_with_id { userTools := [] } (fun _ => none) [] "u1"
    { jsonrpc := some "2.0", id := some (RpcId.str "req-9"),
      method := some "resources/list", params := none }
    "resources/list" (RpcId.str "req-9") rfl rfl rfl (by decide) (by decide) (by decide)

/-- C8: a notification envelope (valid marker, `method` present, `id`
absent) is acknowledged with the empty `204` response — no body, no
result payload, no JSON-RPC response object — by the `routes.ts`
dispatcher, and likewise by the variant dispatcher whenever a `userId`
is present, and no handler is invoked. -/
theorem notification_returns_no_content
    (db : Db) (toolHandlers : String → Option HandlerFn) (tools : List ToolDescriptor)
    (u uv : String) (m : RpcMessage) (mth : String)
    (hj : m.jsonrpc = some "2.0") (hm : m.method = some mth) (hi : m.id = none) :
    postMcp db toolHandlers tools u m = (McpResponse.noContent 204, HandlerEvent.none) ∧
    (uv ≠ "" →
      postMcpVariant db toolHandlers tools (some uv) m =
        (McpResponse.noContent 204, HandlerEvent.none)) := by
  obtain ⟨j, id?, mth?, p?⟩ := m
  simp only at hj hm hi
  subst hj hm hi
  constructor
  · simp [postMcp, jsTruthy]
  · intro hv
    simp [postMcpVariant, jsTruthy, hv]

/-- C8 witness: a concrete notification gets the empty `204` response
from both dispatchers. -/
theorem notification_returns_no_content_witness :
    postMcp { userTools := [] } (fun _ => none) [] "u1"
        { jsonrpc := some "2.0", id := none, method := some "notifications/cancelled",
          params := none } = (McpResponse.noContent 204, HandlerEvent.none) ∧
    ("u1" ≠ "" →
      postMcpVariant { userTools := [] } (fun _ => none) [] (some "u1")
          { jsonrpc := some "2.0", id := none, method := some "notifications/cancelled",
            params := none } = (McpResponse.noContent 204, HandlerEvent.none)) :=
  notification_returns_no_content { userTools := [] } (fun _ => none) [] "u1" "u1"
    { jsonrpc := some "2.0", id := none, method := some "notifications/cancelled",
      params := none } "notifications/cancelled" rfl rfl rfl

/-- C9: the dispatcher injects the request-context `userId` into the
arguments object before invoking the tool (`{...args, userId}`), so
when a subscribed, registered tool is called its handler is invoked
with exactly the caller's `userId`: the injected object maps `"userId"`
to `u`, and the recorded invocation carries `userId = some u`. -/
theorem tools_call_injects_userId
    (db : Db) (toolHandlers : String → Option HandlerFn) (tools : List ToolDescriptor)
    (u : String) (i : RpcId) (p : ToolCallParams) (h : HandlerFn)
    (hsub : ∃ row ∈ db.userTools, row.1 = u ∧ row.2 = p.name)
    (hh : toolHandlers p.name = some h) :
    (∀ a : Args, getArg (setArg a "userId" u) "userId" = some u) ∧
    postMcp db toolHandlers tools u
        { jsonrpc := some "2.0", id := some i, method := some "tools/call",
          params := some p } =
      (McpResponse.success 200 i (RpcResult.toolResult
         (h (removeArg (setArg (p.arguments.getD []) "userId" u) "userId") (some u))),
       HandlerEvent.called p.name
         (removeArg (setArg (p.arguments.getD []) "userId" u) "userId") (some u)) := by
  have hmem : p.name ∈ userToolIds db (some u) := by
    rw [mem_userToolIds]; exact hsub
  refine ⟨fun a => getArg_setArg a "userId" u, ?_⟩
  simp [postMcp, jsTruthy, handleToolCall, getArg_setArg, hmem, hh]

/-- C9 witness: a concrete subscribed call reaches its handler with the
caller's `userId` injected. -/
theorem tools_call_injects_userId_witness :
    (∀ a : Args, getArg (setArg a "userId" "u1") "userId" = some "u1") ∧
    postMcp { userTools := [("u1", "echo")] }
        (fun n => if n == "echo" then some (fun _ uid => okResult (uid.getD "none")) else none)
        [] "u1"
        { jsonrpc := some "2.0", id := some (RpcId.num 1), method := some "tools/call",
          params := some { name := "echo", arguments := some [("x", "y")] } } =
      (McpResponse.success 200 (RpcId.num 1) (RpcResult.toolResult
         ((fun (_ : Args) (uid : Option String) => okResult (uid.getD "none"))
            (removeArg (setArg ((some [("x", "y")] : Option Args).getD []) "userId" "u1")
              "userId") (some "u1"))),
       HandlerEvent.called "echo"
         (removeArg (setArg ((some [("x", "y")] : Option Args).getD []) "userId" "u1")
           "userId") (some "u1")) :=
  tools_call_injects_userId { userTools := [("u1", "echo")] }
    (fun n => if n == "echo" then some (fun _ uid => okResult (uid.getD "none")) else none)
    [] "u1" (RpcId.num 1) { name := "echo", arguments := some [("x", "y")] }
    (fun _ uid => okResult (uid.getD "none"))
    ⟨("u1", "echo"), by decide, rfl, rfl⟩ rfl

/-- C10: in `handleToolCall` the subscription check strictly precedes
the handler-existence check — an unsubscribed user always gets the
access-denied result, even for names with no registered handler, while
the not-implemented result is produced (in the no-handler case) exactly
for subscribed users; the two results are never equal. -/
theorem subscription_check_precedes_handler_lookup
    (db : Db) (toolHandlers : String → Option HandlerFn) (T : String) (a : Args) (u : String)
    (hu : getArg a "userId" = some u) :
    ((∀ p ∈ db.userTools, p.1 = u → p.2 ≠ T) →
       handleToolCall db toolHandlers T (some a) = (accessDeniedResult T, HandlerEvent.none)) ∧
    ((∃ p ∈ db.userTools, p.1 = u ∧ p.2 = T) → toolHandlers T = none →
       handleToolCall db toolHandlers T (some a) =
         (notImplementedResult T, HandlerEvent.none)) ∧
    accessDeniedResult T ≠ notImplementedResult T := by
  refine ⟨?_, ?_, accessDenied_ne_notImplemented T⟩
  · intro hnosub
    have hmem : T ∉ userToolIds db (some u) := by
      rw [mem_userToolIds]
      rintro ⟨p, hp, h1, h2⟩
      exact hnosub p hp h1 h2
    simp [handleToolCall, hu, hmem]
  · intro hsub hnone
    have hmem : T ∈ userToolIds db (some u) := by
      rw [mem_userToolIds]; exact hsub
    simp [handleToolCall, hu, hmem, hnone]

/-- C10 witness: for a concrete user not subscribed to a name with no
registered handler, the result is the denial, and for a subscribed user
with no registered handler it is the not-implemented result. -/
theorem subscription_check_precedes_handler_lookup_witness :
    handleToolCall { userTools := [] } (fun _ => none) "ghost"
        (some [("userId", "u1")]) = (accessDeniedResult "ghost", HandlerEvent.none) ∧
    handleToolCall { userTools := [("u1", "ghost")] } (fun _ => none) "ghost"
        (some [("userId", "u1")]) = (notImplementedResult "ghost", HandlerEvent.none) :=
  ⟨(subscription_check_precedes_handler_lookup { userTools := [] } (fun _ => none) "ghost"
      [("userId", "u1")] "u1" rfl).1 (by decide),
   (subscription_check_precedes_handler_lookup { userTools := [("u1", "ghost")] }
      (fun _ => none) "ghost" [("userId", "u1")] "u1" rfl).2.1
      ⟨("u1", "ghost"), by decide, rfl, rfl⟩ rfl⟩

/-- C3: the proactive staleness check of the full GMAIL_SENDER handler.
With all guards satisfied (arguments, environment, refresh token
present): when the stored expiry is more than five minutes in the
future and the access token is present, no refresh call happens before
the provider call and the first send uses the stored access token
unchanged; when the expiry is within five minutes (or past) or the
access token is absent, exactly one refresh call happens before any
provider call — the first event of the run is that refresh, and if it
fails the run ends with an error and no provider call at all. -/
theorem ensureFresh_guard_window_behavior
    (env : GmailEnv) (k : AccessKeyRec) (now : Int)
    (refreshAt : Nat → RefreshOutcome) (sendAt : Nat → Except SendError String)
    (toMail subject body u rt : String)
    (hm : toMail ≠ "") (hs : subject ≠ "") (hb : body ≠ "") (hu : u ≠ "")
    (he1 : env.clientId ≠ "") (he2 : env.clientSecret ≠ "") (he3 : env.redirectUri ≠ "")
    (hrt : k.refreshToken = some rt) (hrtne : rt ≠ "") :
    (now + 5 * 60 * 1000 < k.expiryDate → k.accessToken ≠ "" →
       proactiveSegment (gmailHandler env (some k) now refreshAt sendAt
           toMail subject body (some u)).trace = [] ∧
       ∃ rest, (gmailHandler env (some k) now refreshAt sendAt
           toMail subject body (some u)).trace =
         ProviderEvent.sendCall k.accessToken :: rest) ∧
    (k.expiryDate ≤ now + 5 * 60 * 1000 ∨ k.accessToken = "" →
       (proactiveSegment (gmailHandler env (some k) now refreshAt sendAt
           toMail subject body (some u)).trace).count ProviderEvent.refreshCall = 1 ∧
       (∀ m, refreshAccessToken now rt (refreshAt 0) = Except.error m →
          (gmailHandler env (some k) now refreshAt sendAt
              toMail subject body (some u)).trace = [ProviderEvent.refreshCall] ∧
          (gmailHandler env (some k) now refreshAt sendAt
              toMail subject body (some u)).result.isError = true) ∧
       (∀ t1 rec1, refreshAccessToken now rt (refreshAt 0) = Except.ok (t1, rec1) →
          ∃ rest, (gmailHandler env (some k) now refreshAt sendAt
              toMail subject body (some u)).trace =
            ProviderEvent.refreshCall :: ProviderEvent.sendCall t1 :: rest)) := by
  have hguard : gmailHandler env (some k) now refreshAt sendAt toMail subject body (some u) =
      (if shouldRefreshToken now (some k.expiryDate) || k.accessToken == "" then
        match refreshAccessToken now rt (refreshAt 0) with
        | Except.error m =>
            { result := errResult ("❌ Failed to refresh token: " ++ m
                 ++ ". Please re-authenticate Gmail."),
              trace := [ProviderEvent.refreshCall], stored := some k }
        | Except.ok (t1, rec1) =>
            gmailSendPhase refreshAt sendAt now toMail rt rec1 t1 1 [ProviderEvent.refreshCall]
      else
        gmailSendPhase refreshAt sendAt now toMail rt k k.accessToken 0 []) := by
    simp [gmailHandler, hm, hs, hb, hu, he1, he2, he3, hrt, hrtne, jsTruthy]
  constructor
  · intro hfresh hat
    have hsr : shouldRefreshToken now (some k.expiryDate) = false := by
      simp only [shouldRefreshToken, decide_eq_false_iff_not]
      omega
    rw [hguard, hsr]
    simp only [Bool.false_or]
    have hatb : (k.accessToken == "") = false := by simpa using hat
    rw [hatb, if_neg (by simp)]
    obtain ⟨rest, hrest⟩ := gmailSendPhase_trace refreshAt sendAt now toMail rt k
      k.accessToken 0 []
    rw [hrest]
    simp only [List.nil_append]
    exact ⟨proactiveSegment_send_cons _ _, rest, rfl⟩
  · intro hstale
    have hcond : (shouldRefreshToken now (some k.expiryDate) || (k.accessToken == "")) = true := by
      rcases hstale with h | h
      · have : shouldRefreshToken now (some k.expiryDate) = true := by
          simp only [shouldRefreshToken, decide_eq_true_eq]
          omega
        simp [this]
      · simp [h]
    rw [hguard, hcond, if_pos rfl]
    cases hr : refreshAccessToken now rt (refreshAt 0) with
    | error m =>
        refine ⟨by simp [proactiveSegment, List.takeWhile_cons, ProviderEvent.isSend], ?_, ?_⟩
        · intro m' _
          exact ⟨rfl, rfl⟩
        · intro t1 rec1 hok
          simp at hok
    | ok pr =>
        obtain ⟨t1, rec1⟩ := pr
        obtain ⟨rest, hrest⟩ := gmailSendPhase_trace refreshAt sendAt now toMail rt rec1 t1 1
          [ProviderEvent.refreshCall]
        simp only [List.cons_append, List.nil_append] at hrest
        refine ⟨?_, ?_, ?_⟩
        · rw [hrest]
          rw [proactiveSegment_refresh_send]
          rfl
        · intro m hm'
          simp at hm'
        · intro t1' rec1' hok
          simp only [Except.ok.injEq, Prod.mk.injEq] at hok
          obtain ⟨h1, h2⟩ := hok
          subst h1
          exact ⟨rest, hrest⟩

/-- C3 witness: with a concrete credential whose expiry is far in the
future, the first provider event is a send with the stored token and no
proactive refresh happens. -/
theorem ensureFresh_guard_window_behavior_witness :
    proactiveSegment (gmailHandler
        { clientId := "cid", clientSecret := "sec", redirectUri := "uri" }
        (some { accessToken := "tok", refreshToken := some "r1", expiryDate := 10000000 }) 0
        (fun _ => RefreshOutcome.err "boom") (fun _ => Except.ok "mid")
        "a@b.c" "subj" "hello" (some "u1")).trace = [] ∧
    ∃ rest, (gmailHandler { clientId := "cid", clientSecret := "sec", redirectUri := "uri" }
        (some { accessToken := "tok", refreshToken := some "r1", expiryDate := 10000000 }) 0
        (fun _ => RefreshOutcome.err "boom") (fun _ => Except.ok "mid")
        "a@b.c" "subj" "hello" (some "u1")).trace =
      ProviderEvent.sendCall "tok" :: rest :=
  (ensureFresh_guard_window_behavior
      { clientId := "cid", clientSecret := "sec", redirectUri := "uri" }
      { accessToken := "tok", refreshToken := some "r1", expiryDate := 10000000 } 0
      (fun _ => RefreshOutcome.err "boom") (fun _ => Except.ok "mid")
      "a@b.c" "subj" "hello" "u1" "r1"
      (by decide) (by decide) (by decide) (by decide)
      (by decide) (by decide) (by decide) rfl (by decide)).1
    (by decide) (by decide)

/-- C2 (amended): retry-once contract of the full GMAIL_SENDER handler.
With all guards satisfied and a token believed valid (no proactive
refresh), if the first send fails with an authentication error (HTTP
401/403 or an OAuth failure marker in the message), the run performs
exactly one forced token refresh and at most one retry of the send
(exactly one when the refresh succeeds, using the refreshed token); if
the refresh fails, or the retried send fails again, the run ends with a
terminal `isError` result and no further refresh or retry occurs. -/
theorem gmail_retry_once_after_auth_error
    (env : GmailEnv) (k : AccessKeyRec) (now : Int)
    (refreshAt : Nat → RefreshOutcome) (sendAt : Nat → Except SendError String)
    (toMail subject body u rt : String) (e : SendError)
    (hm : toMail ≠ "") (hs : subject ≠ "") (hb : body ≠ "") (hu : u ≠ "")
    (he1 : env.clientId ≠ "") (he2 : env.clientSecret ≠ "") (he3 : env.redirectUri ≠ "")
    (hrt : k.refreshToken = some rt) (hrtne : rt ≠ "")
    (hfresh : now + 5 * 60 * 1000 < k.expiryDate) (hat : k.accessToken ≠ "")
    (hsend : sendAt 0 = Except.error e) (hauth : isAuthError e = true) :
    ∀ run, run = gmailHandler env (some k) now refreshAt sendAt toMail subject body (some u) →
      run.trace.count ProviderEvent.refreshCall = 1 ∧
      run.trace.countP ProviderEvent.isSend ≤ 2 ∧
      (∀ m, refreshAccessToken now rt (refreshAt 0) = Except.error m →
         run.trace = [ProviderEvent.sendCall k.accessToken, ProviderEvent.refreshCall] ∧
         run.result.isError = true) ∧
      (∀ t2 rec2, refreshAccessToken now rt (refreshAt 0) = Except.ok (t2, rec2) →
         run.trace = [ProviderEvent.sendCall k.accessToken, ProviderEvent.refreshCall,
                      ProviderEvent.sendCall t2] ∧
         (∀ e2, sendAt 1 = Except.error e2 → run.result.isError = true)) := by
  intro run hrun
  have hsr : shouldRefreshToken now (some k.expiryDate) = false := by
    simp only [shouldRefreshToken, decide_eq_false_iff_not]
    omega
  have hphase : run = gmailSendPhase refreshAt sendAt now toMail rt k k.accessToken 0 [] := by
    rw [hrun]
    simp [gmailHandler, hm, hs, hb, hu, he1, he2, he3, hrt, hrtne, jsTruthy, hsr, hat]
  have hA : (isAuthError e && rt != "") = true := by
    simp [hauth, hrtne]
  subst hphase
  unfold gmailSendPhase
  rw [hsend]
  simp only [hA, if_true]
  cases hr : refreshAccessToken now rt (refreshAt 0) with
  | error m =>
      refine ⟨rfl, by simp [ProviderEvent.isSend], ?_, ?_⟩
      · intro m' _
        exact ⟨rfl, rfl⟩
      · intro t2 rec2 hok
        simp at hok
  | ok pr =>
      obtain ⟨t2, rec2⟩ := pr
      cases hs1 : sendAt 1 with
      | ok msgId =>
          refine ⟨rfl, by simp [ProviderEvent.isSend], ?_, ?_⟩
          · intro m hm'
            simp at hm'
          · intro t2' rec2' hok
            simp only [Except.ok.injEq, Prod.mk.injEq] at hok
            obtain ⟨h1, h2⟩ := hok
            subst h1
            refine ⟨rfl, ?_⟩
            intro e2 he2'
            simp at he2'
      | error e2 =>
          refine ⟨rfl, by simp [ProviderEvent.isSend], ?_, ?_⟩
          · intro m hm'
            simp at hm'
          · intro t2' rec2' hok
            simp only [Except.ok.injEq, Prod.mk.injEq] at hok
            obtain ⟨h1, h2⟩ := hok
            subst h1
            exact ⟨rfl, fun _ _ => rfl⟩

/-- C2 witness: a concrete valid-token run whose first send fails with a
401 performs exactly one forced refresh. -/
theorem gmail_retry_once_after_auth_error_witness :
    (gmailHandler { clientId := "cid", clientSecret := "sec", redirectUri := "uri" }
        (some { accessToken := "tok", refreshToken := some "r1", expiryDate := 10000000 }) 0
        (fun _ => RefreshOutcome.ok (some "tok2") none)
        (fun n => if n == 0 then
            Except.error { code := some 401, message := "Invalid Credentials" }
          else Except.ok "mid2")
        "a@b.c" "subj" "hello" (some "u1")).trace.count ProviderEvent.refreshCall = 1 :=
  (gmail_retry_once_after_auth_error
      { clientId := "cid", clientSecret := "sec", redirectUri := "uri" }
      { accessToken := "tok", refreshToken := some "r1", expiryDate := 10000000 } 0
      (fun _ => RefreshOutcome.ok (some "tok2") none)
      (fun n => if n == 0 then
          Except.error { code := some 401, message := "Invalid Credentials" }
        else Except.ok "mid2")
      "a@b.c" "subj" "hello" "u1" "r1" { code := some 401, message := "Invalid Credentials" }
      (by decide) (by decide) (by decide) (by decide) (by decide) (by decide) (by decide)
      rfl (by decide) (by decide) (by decide) rfl (by decide)
      _ rfl).1

/-- C2 counterexample: the GMAIL_SENDER handler actually loaded by the
registry (`src/src/toolsFolder/GMAIL_SENDER.ts`) refutes the claim as
stated — a provider call failing with HTTP 401 (an authentication error
by the claim's own classification) performs zero token refreshes and
zero retries, returning the terminal error immediately. -/
theorem gmail_toolsFolder_auth_error_no_retry :
    isAuthError { code := some 401, message := "Invalid Credentials" } = true ∧
    (gmailSimpleHandler
        (some { accessToken := "tok", refreshToken := some "r1", expiryDate := 0 })
        (Except.error { code := some 401, message := "Invalid Credentials" })
        "a@b.c" "subj" "hello" (some "u1")).result.isError = true ∧
    (gmailSimpleHandler
        (some { accessToken := "tok", refreshToken := some "r1", expiryDate := 0 })
        (Except.error { code := some 401, message := "Invalid Credentials" })
        "a@b.c" "subj" "hello" (some "u1")).trace.count ProviderEvent.refreshCall = 0 ∧
    (gmailSimpleHandler
        (some { accessToken := "tok", refreshToken := some "r1", expiryDate := 0 })
        (Except.error { code := some 401, message := "Invalid Credentials" })
        "a@b.c" "subj" "hello" (some "u1")).trace.countP ProviderEvent.isSend = 1 := by
  refine ⟨by decide, rfl, rfl, rfl⟩

/-- C6 (amended): persistence on token refresh. In the GMAIL_SENDER
refresh helper a successful refresh persists the new access token, an
expiry of one hour from the refresh time, and the new refresh token
only when the provider issued a truthy one (otherwise the old one is
retained); a failed refresh persists nothing (the error is thrown
before any update). In the CALENDAR_EVENT_CREATOR refresh path a
successful refresh persists only the access token and (conditionally)
the refresh token, leaving the stored expiry timestamp unchanged; a
failed refresh likewise persists nothing. -/
theorem refresh_persistence_behavior :
    (∀ (now : Int) (rt a : String) (nr : Option String), a ≠ "" →
       refreshAccessToken now rt (RefreshOutcome.ok (some a) nr) =
         Except.ok (a, { accessToken := a, refreshToken := some (jsOrElse nr rt),
                         expiryDate := now + 3600 * 1000 })) ∧
    (∀ (now : Int) (rt m : String),
       refreshAccessToken now rt (RefreshOutcome.err m) =
         Except.error ("Token refresh failed: " ++ m)) ∧
    (∀ (stored : AccessKeyRec) (rt a : String) (nr : Option String), a ≠ "" →
       calendarRefreshPersist stored rt (RefreshOutcome.ok (some a) nr) =
         Except.ok { stored with accessToken := a, refreshToken := some (jsOrElse nr rt) } ∧
       (∀ rec, calendarRefreshPersist stored rt (RefreshOutcome.ok (some a) nr) =
          Except.ok rec → rec.expiryDate = stored.expiryDate)) ∧
    (∀ (stored : AccessKeyRec) (rt m : String),
       calendarRefreshPersist stored rt (RefreshOutcome.err m) = Except.error m) := by
  refine ⟨?_, fun now rt m => rfl, ?_, fun stored rt m => rfl⟩
  · intro now rt a nr ha
    simp [refreshAccessToken, ha]
  · intro stored rt a nr ha
    have heq : calendarRefreshPersist stored rt (RefreshOutcome.ok (some a) nr) =
        Except.ok { stored with accessToken := a, refreshToken := some (jsOrElse nr rt) } := by
      simp [calendarRefreshPersist, ha]
    refine ⟨heq, ?_⟩
    intro rec hrec
    rw [heq] at hrec
    simp only [Except.ok.injEq] at hrec
    subst hrec
    rfl

/-- C6 witness: concrete instances of the two success paths — the GMAIL
helper rewrites the expiry to one hour after the refresh, the calendar
path retains the old expiry. -/
theorem refresh_persistence_behavior_witness :
    refreshAccessToken 500 "r0" (RefreshOutcome.ok (some "newTok") none) =
      Except.ok ("newTok", { accessToken := "newTok", refreshToken := some (jsOrElse none "r0"),
                             expiryDate := 500 + 3600 * 1000 }) ∧
    calendarRefreshPersist
        { accessToken := "old", refreshToken := some "r0", expiryDate := 111 }
        "r0" (RefreshOutcome.ok (some "newTok") none) =
      Except.ok { accessToken := "newTok", refreshToken := some (jsOrElse none "r0"),
                  expiryDate := 111 } :=
  ⟨refresh_persistence_behavior.1 500 "r0" "newTok" none (by decide),
   (refresh_persistence_behavior.2.2.1
      { accessToken := "old", refreshToken := some "r0", expiryDate := 111 }
      "r0" "newTok" none (by decide)).1⟩

/-- C6 counterexample: a concrete successful CALENDAR_EVENT_CREATOR
refresh whose persisted record keeps the stale expiry `111` — the
expiry timestamp is not replaced, contradicting the claim that every
successful refresh replaces `accessToken` and `expiryTimestamp`. -/
theorem calendar_refresh_retains_expiry :
    calendarRefreshPersist
        { accessToken := "oldTok", refreshToken := some "r1", expiryDate := 111 }
        "r1" (RefreshOutcome.ok (some "newTok") none) =
      Except.ok { accessToken := "newTok", refreshToken := some "r1", expiryDate := 111 } := by
  rfl

end Mcp
